import Mathlib

/-!
Shallow embedding of the fleet-management server (`src/server/main.py`):
the in-memory robot registry, the state-update ingest path, the liveness
sweep, the WebSocket broadcast fan-out, and the HTTP task/cancel endpoints.

Conventions of the embedding:
* JSON payloads (`Any` on the Python side) are the inductive `JValue`;
  Python `float` values coming from JSON are rationals (`ℚ`).
* `time.time()` is passed in explicitly as a rational `now`.
* Python `dict` is an insertion-ordered association list (`dictGet`/`dictSet`
  reproduce lookup and update-in-place-or-append semantics).
* Fallible endpoints return `Except (Nat × String)` carrying the HTTP status
  code and detail string of the `HTTPException` they raise.
-/

namespace FMS

/-- A JSON value, as decoded by `json.loads` for bus payloads. The payloads
this system exchanges are scalars (battery numbers, status strings) and flat
string-to-number maps (poses, target positions); deeper nesting never occurs
in its messages, so object values are modeled as flat numeric maps. -/
inductive JValue where
  | null : JValue
  | bool (b : Bool) : JValue
  | num (q : ℚ) : JValue
  | str (s : String) : JValue
  | numMap (fields : List (String × ℚ)) : JValue
  deriving DecidableEq, Repr

/-- Python `dict` lookup on an insertion-ordered association list. -/
def dictGet {α : Type} : List (String × α) → String → Option α
  | [], _ => none
  | (k, v) :: rest, key => if k = key then some v else dictGet rest key

/-- Python `dict` assignment `m[key] = v`: replaces the binding in place if
the key is present, appends a new binding otherwise. -/
def dictSet {α : Type} : List (String × α) → String → α → List (String × α)
  | [], key, v => [(key, v)]
  | (k, w) :: rest, key, v =>
      if k = key then (k, v) :: rest else (k, w) :: dictSet rest key v

/-- `RobotState` (pydantic model): one record per known robot. Field types
follow what the Python code can actually store: `pose`, `battery` and
`status` receive raw decoded payloads, so they hold arbitrary `JValue`s. -/
structure RobotState where
  robot_id : String
  pose : JValue := JValue.numMap []
  battery : JValue := JValue.num 0
  status : JValue := JValue.str "OFFLINE"
  last_seen : ℚ := 0
  custom_state : List (String × JValue) := []
  deriving DecidableEq, Repr

/-- The Fleet Registry: `RobotStateManager.robot_states`. -/
abbrev Registry := List (String × RobotState)

/-- The field mutations of `RobotStateManager.update_robot_state` on one
record: refresh `last_seen`, reset `status` to `"ONLINE"`, then dispatch on
the state category (`pose` / `battery` / `status` / anything else goes into
`custom_state`). -/
def applyUpdateRobot (r : RobotState) (state_type : String) (data : JValue)
    (now : ℚ) : RobotState :=
  let r := { r with last_seen := now, status := JValue.str "ONLINE" }
  if state_type = "pose" then { r with pose := data }
  else if state_type = "battery" then { r with battery := data }
  else if state_type = "status" then { r with status := data }
  else { r with custom_state := dictSet r.custom_state state_type data }

/-- `RobotStateManager.update_robot_state`: create the record on first sight
of a `robot_id` (implicit registration, pydantic defaults), then mutate it in
place. Only the Registry effect is modeled here; the broadcast the method
then performs is the fan-out modeled by `broadcast_update` below. -/
def update_robot_state (reg : Registry) (robot_id state_type : String)
    (data : JValue) (now : ℚ) : Registry :=
  let r0 := match dictGet reg robot_id with
    | some r => r
    | none => { robot_id := robot_id }
  dictSet reg robot_id (applyUpdateRobot r0 state_type data now)

/-- A Python exception escaping a handler uncaught. -/
inductive PyExc where
  | typeError
  deriving DecidableEq, Repr

/-- Python `v > c` (for a float `c`) on a decoded JSON value: JSON numbers
compare numerically, Python booleans compare as 0/1, and every other value
(`None`, strings, objects — e.g. the battery *dict* the stock agent
publishes) raises `TypeError`, modeled as `none`. -/
def pyGtNum (v : JValue) (c : ℚ) : Option Bool :=
  match v with
  | JValue.num q => some (decide (c < q))
  | JValue.bool b => some (decide (c < (if b then (1 : ℚ) else 0)))
  | _ => none

/-- Transport priority classes used when publishing (`zenoh.Priority`). -/
inductive Priority where
  | default
  | normal
  | realTime
  deriving DecidableEq, Repr

/-- `TaskRequest` (pydantic model of the POST /api/tasks body). -/
structure TaskRequest where
  robot_id : String
  target_position : List (String × ℚ)
  priority : String := "normal"
  deriving DecidableEq, Repr

/-- `TaskResponse` returned by POST /api/tasks. -/
structure TaskResponse where
  task_id : String
  robot_id : String
  status : String
  deriving DecidableEq, Repr

/-- `schedule_robot`: availability gate for dispatch —
`if robot and robot.status == "ONLINE" and robot.battery > 20.0`. The `and`
short-circuits, so the battery comparison is evaluated only when the record
exists and its status equals `"ONLINE"`; if the stored battery payload is
then non-numeric, `robot.battery > 20.0` raises `TypeError`, which this
function propagates (`Except.error`). -/
def schedule_robot (reg : Registry) (task : TaskRequest) :
    Except PyExc (Option String) :=
  match dictGet reg task.robot_id with
  | some robot =>
      if robot.status = JValue.str "ONLINE" then
        match pyGtNum robot.battery 20 with
        | some true => Except.ok (some task.robot_id)
        | some false => Except.ok none
        | none => Except.error PyExc.typeError
      else Except.ok none
  | none => Except.ok none

/-- Python `int(t)` for the nonnegative-or-not timestamp: truncation toward
zero. -/
def pyInt (q : ℚ) : Int := if 0 ≤ q then ⌊q⌋ else ⌈q⌉

/-- The task-identifier mint of `create_task`: `f"task_{int(time.time())}"`. -/
def mintTaskId (now : ℚ) : String := "task_" ++ toString (pyInt now)

/-- The command envelope `create_task` publishes to
`fms/robot/{robot_id}/cmd/task`. -/
structure TaskCmd where
  topic : String
  task_id : String
  target_position : List (String × ℚ)
  priority : String
  timestamp : ℚ
  transport_priority : Priority
  deriving DecidableEq, Repr

/-- `create_task` (POST /api/tasks): gate through `schedule_robot`; on
rejection raise HTTP 503 with a human-readable detail; on success mint a
task id from the wall clock, publish the command envelope (REAL_TIME
transport priority iff the caller asked for `"high"`), and answer with a
`TaskResponse`. A `TypeError` raised inside `schedule_robot` escapes the
handler uncaught, and FastAPI/Starlette answers that request with the HTTP
500 `"Internal Server Error"` response — that response is the modeled
error value for the raising path. -/
def create_task (reg : Registry) (task : TaskRequest) (now : ℚ) :
    Except (Nat × String) (TaskResponse × TaskCmd) :=
  match schedule_robot reg task with
  | Except.error PyExc.typeError => Except.error (500, "Internal Server Error")
  | Except.ok none => Except.error (503, "指定机器人" ++ task.robot_id ++ "不可用（离线或电量不足）")
  | Except.ok (some robot_id) =>
      let task_id := mintTaskId now
      Except.ok
        ({ task_id := task_id, robot_id := robot_id, status := "scheduled" },
         { topic := "fms/robot/" ++ robot_id ++ "/cmd/task",
           task_id := task_id,
           target_position := task.target_position,
           priority := task.priority,
           timestamp := now,
           transport_priority :=
             if task.priority = "high" then Priority.realTime else Priority.normal })

/-- The cancel envelope `cancel_task` publishes to
`fms/robot/{robot_id}/cmd/cancel`. -/
structure CancelCmd where
  topic : String
  timestamp : ℚ
  reason : String
  transport_priority : Priority
  deriving DecidableEq, Repr

/-- `cancel_task` (POST /api/robots/{robot_id}/cancel): 404 when the robot is
unknown; otherwise publish the cancel envelope at REAL_TIME priority and
acknowledge — no availability or task-phase check. -/
def cancel_task (reg : Registry) (robot_id : String) (now : ℚ) :
    Except (Nat × String) (CancelCmd × String) :=
  if (dictGet reg robot_id).isSome then
    Except.ok
      ({ topic := "fms/robot/" ++ robot_id ++ "/cmd/cancel",
         timestamp := now,
         reason := "user_request",
         transport_priority := Priority.realTime },
       "cancel command sent")
  else Except.error (404, "机器人不存在")

/-- `get_robot` (GET /api/robots/{robot_id}): the record, or 404. -/
def get_robot (reg : Registry) (robot_id : String) :
    Except (Nat × String) RobotState :=
  match dictGet reg robot_id with
  | some r => Except.ok r
  | none => Except.error (404, "机器人不存在")

/-- The wildcard key expression `zenoh_subscribe` subscribes to. -/
def subscribePattern : String := "fms/robot/*/state/**"

/-- The key the offline checker publishes system events to. -/
def offlineEventTopic : String := "fms/system/event/robot_offline"

/-- Python `str.split('/')` on the character list: splits at every slash and
keeps empty segments (`"".split('/') == [""]`). -/
def splitSegs : List Char → List (List Char)
  | [] => [[]]
  | c :: cs =>
      if c = '/' then [] :: splitSegs cs
      else
        match splitSegs cs with
        | seg :: rest => (c :: seg) :: rest
        | [] => [[c]]

/-- Python `key.split('/')`. -/
def splitSlash (s : String) : List String := (splitSegs s.data).map String.mk

/-- Python `'/'.join(parts)`. -/
def joinSlash : List String → String
  | [] => ""
  | [s] => s
  | s :: rest => s ++ "/" ++ joinSlash rest

/-- The key parsing of the subscription callback in `zenoh_subscribe`:
split on `/`, require at least five segments with literals
`fms`/`robot`/.../`state`/..., take segment 2 as the robot id and re-join
everything after `state` as the category. Returns `none` where the callback
just returns. -/
def parse_state_key (key : String) : Option (String × String) :=
  match splitSlash key with
  | p0 :: p1 :: robot_id :: p3 :: rest =>
      if p0 = "fms" ∧ p1 = "robot" ∧ p3 = "state" ∧ rest ≠ [] then
        some (robot_id, joinSlash rest)
      else none
  | _ => none

/-- One record's check inside `check_offline_robots`: silent for longer than
the threshold and not already `"OFFLINE"` means transition to `"OFFLINE"`
(the `Bool` flags that a transition happened). -/
def sweepRobot (now threshold : ℚ) (r : RobotState) : RobotState × Bool :=
  if now - r.last_seen > threshold ∧ r.status ≠ JValue.str "OFFLINE" then
    ({ r with status := JValue.str "OFFLINE" }, true)
  else (r, false)

/-- One iteration of the `check_offline_robots` loop over the whole
Registry: every record is checked, and the ids of the robots that
transitioned are collected (in Registry order) — the code emits exactly one
status broadcast during the loop and one `robot_offline` system event
afterwards for each collected id. -/
def sweepOnce (now threshold : ℚ) (reg : Registry) : Registry × List String :=
  (reg.map (fun kr => (kr.1, (sweepRobot now threshold kr.2).1)),
   reg.filterMap (fun kr =>
     if (sweepRobot now threshold kr.2).2 = true then some kr.1 else none))

/-- The status-update envelope broadcast for each offline transition:
`broadcast_update(robot_id, "status", "OFFLINE")`. -/
structure BroadcastMsg where
  msg_type : String
  robot_id : String
  state_type : String
  data : JValue
  timestamp : ℚ
  deriving DecidableEq, Repr

/-- The `robot_offline` system event published for each transitioned robot. -/
structure OfflineEvent where
  topic : String
  robot_id : String
  timestamp : ℚ
  deriving DecidableEq, Repr

/-- The status broadcasts one sweep iteration emits for its transitioned
robots. -/
def sweepBroadcasts (now : ℚ) (rids : List String) : List BroadcastMsg :=
  rids.map (fun rid =>
    { msg_type := "state_update", robot_id := rid, state_type := "status",
      data := JValue.str "OFFLINE", timestamp := now })

/-- The system events one sweep iteration publishes for its transitioned
robots (`for robot_id in offline_robots: zenoh_publish(...)`). -/
def sweepEvents (now : ℚ) (rids : List String) : List OfflineEvent :=
  rids.map (fun rid =>
    { topic := offlineEventTopic, robot_id := rid, timestamp := now })

/-- Iterated liveness sweeps at the given wall-clock instants, with no
intervening state updates (the silent-robot scenario). Returns the final
Registry and every (sweep time, transitioned robot id) pair in order. -/
def runSweeps (threshold : ℚ) : Registry → List ℚ → Registry × List (ℚ × String)
  | reg, [] => (reg, [])
  | reg, t :: ts =>
      let step := sweepOnce t threshold reg
      let rest := runSweeps threshold step.1 ts
      (rest.1, step.2.map (fun rid => (t, rid)) ++ rest.2)

/-- All status broadcasts emitted across a run of sweeps. -/
def runBroadcasts (threshold : ℚ) (reg : Registry) (ts : List ℚ) :
    List BroadcastMsg :=
  ((runSweeps threshold reg ts).2).map (fun p =>
    { msg_type := "state_update", robot_id := p.2, state_type := "status",
      data := JValue.str "OFFLINE", timestamp := p.1 })

/-- All `robot_offline` system events published across a run of sweeps. -/
def runEvents (threshold : ℚ) (reg : Registry) (ts : List ℚ) :
    List OfflineEvent :=
  ((runSweeps threshold reg ts).2).map (fun p =>
    { topic := offlineEventTopic, robot_id := p.2, timestamp := p.1 })

/-- A WebSocket observer handle as the fan-out loop sees it: its identity
and whether `send_text` would raise for it in this pass. -/
structure Observer where
  id : String
  failSend : Bool
  deriving DecidableEq, Repr

/-- The observable effect of one `RobotStateManager.broadcast_update` pass.
The method is only ever called from `update_robot_state` and
`check_offline_robots`, both of which already hold `self.lock`
(a non-reentrant `asyncio.Lock`). The loop sends to each connection in
registration order; on the first send failure it awaits
`remove_connection`, which tries to re-acquire that same held lock in the
same task and therefore never completes: the failing connection is never
removed, no later connection is reached, and the pass (and its caller)
never returns. Result: (the observers the envelope actually reached, in
order, before any hang; whether the pass ran to completion). The connection
list itself is never changed by a pass — a completed pass removed nobody,
and a hung pass never got to its removal. -/
def broadcast_update : List Observer → List Observer × Bool
  | [] => ([], true)
  | c :: rest =>
      if c.failSend then ([], false)
      else
        let r := broadcast_update rest
        (c :: r.1, r.2)

/-- A bus state report as consumed by the ingest bridge. -/
structure UpdateMsg where
  robot_id : String
  category : String
  data : JValue
  time : ℚ
  deriving DecidableEq, Repr

/-- Applying a sequence of ingested state reports to the Registry. -/
def applyUpdates (reg : Registry) (us : List UpdateMsg) : Registry :=
  us.foldl (fun acc u => update_robot_state acc u.robot_id u.category u.data u.time) reg

/-! ### Python-dict lemmas -/

theorem dictGet_dictSet_self {α : Type} (m : List (String × α)) (k : String) (v : α) :
    dictGet (dictSet m k v) k = some v := by
  induction m with
  | nil => simp [dictGet, dictSet]
  | cons hd tl ih =>
      obtain ⟨k', w⟩ := hd
      by_cases h : k' = k
      · subst h; simp [dictGet, dictSet]
      · simp [dictGet, dictSet, h, ih]

theorem dictGet_dictSet_ne {α : Type} (m : List (String × α)) (k key : String) (v : α)
    (h : k ≠ key) : dictGet (dictSet m k v) key = dictGet m key := by
  induction m with
  | nil => simp [dictGet, dictSet, h]
  | cons hd tl ih =>
      obtain ⟨k', w⟩ := hd
      by_cases h' : k' = k
      · subst h'; simp [dictGet, dictSet, h]
      · simp [dictGet, dictSet, h', ih]

theorem dictSet_dictSet_self {α : Type} (m : List (String × α)) (k : String) (v w : α) :
    dictSet (dictSet m k v) k w = dictSet m k w := by
  induction m with
  | nil => simp [dictSet]
  | cons hd tl ih =>
      obtain ⟨k', u⟩ := hd
      by_cases h : k' = k
      · subst h; simp [dictSet]
      · simp [dictSet, h, ih]

/-! ### Update-ingest lemmas -/

theorem dictGet_update_self (reg : Registry) (rid cat : String) (data : JValue) (now : ℚ) :
    dictGet (update_robot_state reg rid cat data now) rid =
      some (applyUpdateRobot
        (match dictGet reg rid with
         | some r => r
         | none => { robot_id := rid }) cat data now) := by
  unfold update_robot_state
  exact dictGet_dictSet_self ..

theorem dictGet_update_ne (reg : Registry) (rid rid' cat : String) (data : JValue)
    (now : ℚ) (h : rid ≠ rid') :
    dictGet (update_robot_state reg rid cat data now) rid' = dictGet reg rid' := by
  unfold update_robot_state
  exact dictGet_dictSet_ne _ _ _ _ h

theorem applyUpdateRobot_status (r : RobotState) (cat : String) (data : JValue) (now : ℚ) :
    (applyUpdateRobot r cat data now).status =
      (if cat = "status" then data else JValue.str "ONLINE") := by
  unfold applyUpdateRobot
  by_cases h1 : cat = "pose"
  · subst h1; simp
  · by_cases h2 : cat = "battery"
    · subst h2; simp
    · by_cases h3 : cat = "status"
      · subst h3; simp
      · simp [h1, h2, h3]

theorem applyUpdateRobot_last_seen (r : RobotState) (cat : String) (data : JValue) (now : ℚ) :
    (applyUpdateRobot r cat data now).last_seen = now := by
  unfold applyUpdateRobot
  by_cases h1 : cat = "pose"
  · subst h1; simp
  · by_cases h2 : cat = "battery"
    · subst h2; simp
    · by_cases h3 : cat = "status"
      · subst h3; simp
      · simp [h1, h2, h3]

theorem applyUpdateRobot_battery_ne (r : RobotState) (cat : String) (data : JValue)
    (now : ℚ) (h : cat ≠ "battery") :
    (applyUpdateRobot r cat data now).battery = r.battery := by
  unfold applyUpdateRobot
  by_cases h1 : cat = "pose"
  · subst h1; simp
  · by_cases h3 : cat = "status"
    · subst h3; simp
    · simp [h1, h, h3]

theorem applyUpdateRobot_idem (r : RobotState) (cat : String) (data : JValue) (t1 t2 : ℚ) :
    applyUpdateRobot (applyUpdateRobot r cat data t1) cat data t2 =
      applyUpdateRobot r cat data t2 := by
  unfold applyUpdateRobot
  by_cases h1 : cat = "pose"
  · subst h1; simp
  · by_cases h2 : cat = "battery"
    · subst h2; simp
    · by_cases h3 : cat = "status"
      · subst h3; simp
      · simp [h1, h2, h3, dictSet_dictSet_self]

/-- C4 — the claim as stated is false: an update whose category is
`"status"` stores the raw payload into `status`, so the field afterwards is
the payload (here `"idle"`), not `"ONLINE"`. Concrete run: apply the update
`("r1", "status", "idle", t=10)` to an empty Registry. -/
theorem update_status_category_cex :
    (dictGet (update_robot_state [] "r1" "status" (JValue.str "idle") 10) "r1").map
        RobotState.status = some (JValue.str "idle") ∧
      JValue.str "idle" ≠ JValue.str "ONLINE" := by
  constructor
  · rfl
  · decide

/-- C4 (amended) — an applied incoming state update always resets `status`
to `"ONLINE"` *unless* the update's category is itself `"status"`, in which
case `status` becomes the update's payload verbatim. -/
theorem update_resets_status_online :
    ∀ (reg : Registry) (rid cat : String) (data : JValue) (now : ℚ),
      (dictGet (update_robot_state reg rid cat data now) rid).map RobotState.status =
        some (if cat = "status" then data else JValue.str "ONLINE") := by
  intro reg rid cat data now
  rw [dictGet_update_self]
  simp [applyUpdateRobot_status]

/-- C5 — the claim as stated is false: if the *first* update ever applied
for an unknown robot has category `"status"`, the created record's status is
the payload (here `"running"`), not `"ONLINE"`. Concrete run: the empty
Registry does not know `"r2"`; apply `("r2", "status", "running", t=7)`. -/
theorem first_update_status_cex :
    dictGet ([] : Registry) "r2" = none ∧
      (dictGet (update_robot_state [] "r2" "status" (JValue.str "running") 7) "r2").map
          RobotState.status = some (JValue.str "running") ∧
      JValue.str "running" ≠ JValue.str "ONLINE" := by
  refine ⟨rfl, rfl, by decide⟩

/-- C5 (amended) — for a robot id not present in the Registry, the first
applied update creates a record whose `last_seen` equals that update's time
and whose status is `"ONLINE"` — except when that first update's category is
`"status"`, in which case the status is the update's payload. -/
theorem first_update_creates_record (reg : Registry) (rid cat : String)
    (data : JValue) (now : ℚ) (_habs : dictGet reg rid = none) :
    (dictGet (update_robot_state reg rid cat data now) rid).map RobotState.last_seen =
        some now ∧
      (dictGet (update_robot_state reg rid cat data now) rid).map RobotState.status =
        some (if cat = "status" then data else JValue.str "ONLINE") := by
  constructor
  · rw [dictGet_update_self]
    simp [applyUpdateRobot_last_seen]
  · rw [dictGet_update_self]
    simp [applyUpdateRobot_status]

/-- Witness for C5 (amended): first-ever update for `"r5"` (category
`"pose"`, time 3) yields `last_seen = 3` and status `"ONLINE"`. -/
theorem first_update_creates_record_witness :
    (dictGet (update_robot_state [] "r5" "pose" (JValue.numMap [("x", 1)]) 3) "r5").map
        RobotState.last_seen = some 3 ∧
      (dictGet (update_robot_state [] "r5" "pose" (JValue.numMap [("x", 1)]) 3) "r5").map
        RobotState.status =
        some (if "pose" = "status" then JValue.numMap [("x", 1)] else JValue.str "ONLINE") :=
  first_update_creates_record [] "r5" "pose" (JValue.numMap [("x", 1)]) 3 rfl

/-- C6 — applying the same `(category, value)` update to the same robot
twice in succession leaves the Registry exactly as applying it once (the
second application absorbs the first, including for arbitrary update
times). -/
theorem update_idempotent :
    ∀ (reg : Registry) (rid cat : String) (data : JValue) (t1 t2 : ℚ),
      update_robot_state (update_robot_state reg rid cat data t1) rid cat data t2 =
        update_robot_state reg rid cat data t2 := by
  intro reg rid cat data t1 t2
  have h2 : ∀ (m : Registry) (r : RobotState), dictGet m rid = some r →
      update_robot_state m rid cat data t2 = dictSet m rid (applyUpdateRobot r cat data t2) := by
    intro m r h
    unfold update_robot_state
    rw [h]
  set r0 : RobotState :=
    (match dictGet reg rid with
     | some r => r
     | none => { robot_id := rid }) with hr0
  have h1 : update_robot_state reg rid cat data t1 =
      dictSet reg rid (applyUpdateRobot r0 cat data t1) := rfl
  have hg : dictGet (update_robot_state reg rid cat data t1) rid =
      some (applyUpdateRobot r0 cat data t1) := by
    rw [h1]
    exact dictGet_dictSet_self ..
  have h3 : update_robot_state reg rid cat data t2 =
      dictSet reg rid (applyUpdateRobot r0 cat data t2) := rfl
  rw [h2 _ _ hg, h1, applyUpdateRobot_idem, dictSet_dictSet_self, h3]

/-! ### Dispatch gate (C1, C2, C10) -/

theorem schedule_robot_none (reg : Registry) (task : TaskRequest)
    (h : dictGet reg task.robot_id = none) :
    schedule_robot reg task = Except.ok none := by
  unfold schedule_robot
  rw [h]

theorem schedule_robot_found (reg : Registry) (task : TaskRequest) (robot : RobotState)
    (h : dictGet reg task.robot_id = some robot) :
    schedule_robot reg task =
      (if robot.status = JValue.str "ONLINE" then
        match pyGtNum robot.battery 20 with
        | some true => Except.ok (some task.robot_id)
        | some false => Except.ok none
        | none => Except.error PyExc.typeError
      else Except.ok none) := by
  unfold schedule_robot
  rw [h]

theorem create_task_of_raise (reg : Registry) (task : TaskRequest) (now : ℚ)
    (h : schedule_robot reg task = Except.error PyExc.typeError) :
    create_task reg task now = Except.error (500, "Internal Server Error") := by
  unfold create_task
  rw [h]

theorem create_task_of_unavailable (reg : Registry) (task : TaskRequest) (now : ℚ)
    (h : schedule_robot reg task = Except.ok none) :
    create_task reg task now =
      Except.error (503, "指定机器人" ++ task.robot_id ++ "不可用（离线或电量不足）") := by
  unfold create_task
  rw [h]

theorem create_task_of_selected (reg : Registry) (task : TaskRequest) (now : ℚ)
    (rid : String) (h : schedule_robot reg task = Except.ok (some rid)) :
    create_task reg task now =
      Except.ok
        ({ task_id := mintTaskId now, robot_id := rid, status := "scheduled" },
         { topic := "fms/robot/" ++ rid ++ "/cmd/task",
           task_id := mintTaskId now,
           target_position := task.target_position,
           priority := task.priority,
           timestamp := now,
           transport_priority :=
             if task.priority = "high" then Priority.realTime else Priority.normal }) := by
  unfold create_task
  rw [h]

/-- C1 — the claim as stated is false on the code: a dispatch can be
rejected without the 503 service-unavailable response. If the requested
robot's status is `"ONLINE"` but its stored battery payload is not a number
— exactly what the stock agent publishes: a dict
`{voltage, percentage, power_supply_status, timestamp}` — then
`robot.battery > 20.0` raises `TypeError`, the exception escapes the
endpoint uncaught, and the caller receives HTTP 500 `"Internal Server
Error"` instead of a 503 with an unavailability reason. -/
theorem create_task_typeerror_cex :
    create_task
        [("r1", { robot_id := "r1", status := JValue.str "ONLINE",
                  battery := JValue.numMap
                    [("voltage", 12), ("percentage", 80),
                     ("power_supply_status", 2), ("timestamp", 1000)] })]
        { robot_id := "r1", target_position := [("x", 2)] } 9 =
      Except.error (500, "Internal Server Error") ∧
      ((500 : Nat), "Internal Server Error") ≠
        ((503 : Nat), "指定机器人" ++ "r1" ++ "不可用（离线或电量不足）") := by
  exact ⟨rfl, by decide⟩

/-- C1 (amended) — `create_task` accepts exactly when the Registry holds the
requested robot with status `"ONLINE"` and a battery value whose Python
comparison with 20.0 is defined (number or boolean) and yields greater-than;
a robot that is unknown, not `"ONLINE"`, or whose battery compares
not-greater gets the 503 service-unavailable rejection naming the robot —
but a robot that is `"ONLINE"` with a battery payload whose comparison
raises `TypeError` makes the endpoint answer HTTP 500 `"Internal Server
Error"` instead of the 503; every rejection is one of those two errors. -/
theorem create_task_gate_outcomes (reg : Registry) (task : TaskRequest) (now : ℚ) :
    ((create_task reg task now).isOk = true ↔
      ∃ robot, dictGet reg task.robot_id = some robot ∧
        robot.status = JValue.str "ONLINE" ∧ pyGtNum robot.battery 20 = some true) ∧
    (create_task reg task now = Except.error (500, "Internal Server Error") ↔
      ∃ robot, dictGet reg task.robot_id = some robot ∧
        robot.status = JValue.str "ONLINE" ∧ pyGtNum robot.battery 20 = none) ∧
    (∀ e, create_task reg task now = Except.error e →
      e = (503, "指定机器人" ++ task.robot_id ++ "不可用（离线或电量不足）") ∨
        e = (500, "Internal Server Error")) := by
  have h503ne : ((503 : Nat), "指定机器人" ++ task.robot_id ++ "不可用（离线或电量不足）") ≠
      ((500 : Nat), "Internal Server Error") := by
    intro hh
    have h1 : (503 : Nat) = 500 := congrArg Prod.fst hh
    exact absurd h1 (by decide)
  cases hg : dictGet reg task.robot_id with
  | none =>
      have hc := create_task_of_unavailable reg task now (schedule_robot_none reg task hg)
      refine ⟨?_, ?_, ?_⟩
      · rw [hc]
        constructor
        · intro h
          exact Bool.noConfusion h
        · rintro ⟨robot, hr, -, -⟩
          exact Option.noConfusion hr
      · rw [hc]
        constructor
        · intro h
          injection h with h2
          exact absurd h2 h503ne
        · rintro ⟨robot, hr, -, -⟩
          exact Option.noConfusion hr
      · intro e he
        rw [hc] at he
        injection he with he2
        exact Or.inl he2.symm
  | some robot =>
      by_cases hsON : robot.status = JValue.str "ONLINE"
      · cases hb : pyGtNum robot.battery 20 with
        | none =>
            have hs : schedule_robot reg task = Except.error PyExc.typeError := by
              rw [schedule_robot_found reg task robot hg, if_pos hsON, hb]
            have hc := create_task_of_raise reg task now hs
            refine ⟨?_, ?_, ?_⟩
            · rw [hc]
              constructor
              · intro h
                exact Bool.noConfusion h
              · rintro ⟨robot', hr, -, hbt⟩
                injection hr with hrr
                subst hrr
                rw [hb] at hbt
                exact Option.noConfusion hbt
            · rw [hc]
              exact ⟨fun _ => ⟨robot, rfl, hsON, hb⟩, fun _ => rfl⟩
            · intro e he
              rw [hc] at he
              injection he with he2
              exact Or.inr he2.symm
        | some b =>
            cases b with
            | true =>
                have hs : schedule_robot reg task = Except.ok (some task.robot_id) := by
                  rw [schedule_robot_found reg task robot hg, if_pos hsON, hb]
                have hc := create_task_of_selected reg task now task.robot_id hs
                refine ⟨?_, ?_, ?_⟩
                · rw [hc]
                  exact ⟨fun _ => ⟨robot, rfl, hsON, hb⟩, fun _ => rfl⟩
                · rw [hc]
                  constructor
                  · intro h
                    exact Except.noConfusion h
                  · rintro ⟨robot', hr, -, hbt⟩
                    injection hr with hrr
                    subst hrr
                    rw [hb] at hbt
                    exact Option.noConfusion hbt
                · intro e he
                  rw [hc] at he
                  exact Except.noConfusion he
            | false =>
                have hs : schedule_robot reg task = Except.ok none := by
                  rw [schedule_robot_found reg task robot hg, if_pos hsON, hb]
                have hc := create_task_of_unavailable reg task now hs
                refine ⟨?_, ?_, ?_⟩
                · rw [hc]
                  constructor
                  · intro h
                    exact Bool.noConfusion h
                  · rintro ⟨robot', hr, -, hbt⟩
                    injection hr with hrr
                    subst hrr
                    rw [hb] at hbt
                    simp at hbt
                · rw [hc]
                  constructor
                  · intro h
                    injection h with h2
                    exact absurd h2 h503ne
                  · rintro ⟨robot', hr, -, hbt⟩
                    injection hr with hrr
                    subst hrr
                    rw [hb] at hbt
                    exact Option.noConfusion hbt
                · intro e he
                  rw [hc] at he
                  injection he with he2
                  exact Or.inl he2.symm
      · have hs : schedule_robot reg task = Except.ok none := by
          rw [schedule_robot_found reg task robot hg, if_neg hsON]
        have hc := create_task_of_unavailable reg task now hs
        refine ⟨?_, ?_, ?_⟩
        · rw [hc]
          constructor
          · intro h
            exact Bool.noConfusion h
          · rintro ⟨robot', hr, hst, -⟩
            injection hr with hrr
            subst hrr
            exact absurd hst hsON
        · rw [hc]
          constructor
          · intro h
            injection h with h2
            exact absurd h2 h503ne
          · rintro ⟨robot', hr, hst, -⟩
            injection hr with hrr
            subst hrr
            exact absurd hst hsON
        · intro e he
          rw [hc] at he
          injection he with he2
          exact Or.inl he2.symm

/-- Witness for C1 (amended): `r1` (`"ONLINE"`, numeric battery 55) is
accepted; `r2` (`"ONLINE"`, battery stored as the agent's dict) makes the
endpoint answer the 500 Internal Server Error. -/
theorem create_task_gate_outcomes_witness :
    (create_task
        [("r1", { robot_id := "r1", status := JValue.str "ONLINE",
                  battery := JValue.num 55 })]
        { robot_id := "r1", target_position := [("x", 2)] } 9).isOk = true ∧
      create_task
        [("r2", { robot_id := "r2", status := JValue.str "ONLINE",
                  battery := JValue.numMap [("percentage", 80)] })]
        { robot_id := "r2", target_position := [("x", 2)] } 9 =
        Except.error (500, "Internal Server Error") :=
  ⟨(create_task_gate_outcomes
      [("r1", { robot_id := "r1", status := JValue.str "ONLINE",
                battery := JValue.num 55 })]
      { robot_id := "r1", target_position := [("x", 2)] } 9).1.mpr
    ⟨{ robot_id := "r1", status := JValue.str "ONLINE", battery := JValue.num 55 },
      rfl, rfl, by decide⟩,
   (create_task_gate_outcomes
      [("r2", { robot_id := "r2", status := JValue.str "ONLINE",
                battery := JValue.numMap [("percentage", 80)] })]
      { robot_id := "r2", target_position := [("x", 2)] } 9).2.1.mpr
    ⟨{ robot_id := "r2", status := JValue.str "ONLINE",
       battery := JValue.numMap [("percentage", 80)] },
      rfl, rfl, rfl⟩⟩

/-- C2 — violated by the code: task identifiers are minted as
`f"task_{int(time.time())}"`, so two successful dispatches inside the same
wall-clock second receive the *same* identifier. Concrete run: the same
available robot is dispatched at t = 100.2 and at t = 100.8; both calls
succeed and both return `task_100`, though the instants differ. -/
theorem create_task_same_second_same_id :
    ((501 : ℚ) / 5 ≠ (504 : ℚ) / 5) ∧
      (create_task
          [("r1", { robot_id := "r1", status := JValue.str "ONLINE",
                    battery := JValue.num 50 })]
          { robot_id := "r1", target_position := [("x", 1)] }
          ((501 : ℚ) / 5)).toOption.map (fun x => x.1.task_id) = some "task_100" ∧
      (create_task
          [("r1", { robot_id := "r1", status := JValue.str "ONLINE",
                    battery := JValue.num 50 })]
          { robot_id := "r1", target_position := [("x", 1)] }
          ((504 : ℚ) / 5)).toOption.map (fun x => x.1.task_id) = some "task_100" := by
  have hm : ∀ t : ℚ, 0 ≤ t → ⌊t⌋ = 100 → mintTaskId t = "task_100" := by
    intro t h0 hfl
    unfold mintTaskId pyInt
    rw [if_pos h0, hfl]
    decide
  have hs : schedule_robot
      [("r1", { robot_id := "r1", status := JValue.str "ONLINE",
                battery := JValue.num 50 })]
      { robot_id := "r1", target_position := [("x", 1)] } =
      Except.ok (some "r1") := by
    rfl
  have hrun : ∀ t : ℚ, 0 ≤ t → ⌊t⌋ = 100 →
      (create_task
          [("r1", { robot_id := "r1", status := JValue.str "ONLINE",
                    battery := JValue.num 50 })]
          { robot_id := "r1", target_position := [("x", 1)] }
          t).toOption.map (fun x => x.1.task_id) = some "task_100" := by
    intro t h0 hfl
    unfold create_task
    rw [hs, hm t h0 hfl]
    rfl
  refine ⟨by norm_num, hrun _ (by norm_num) ?_, hrun _ (by norm_num) ?_⟩
  · rw [Int.floor_eq_iff]
    norm_num
  · rw [Int.floor_eq_iff]
    norm_num

/-! ### Cancel and lookup (C8) -/

/-- C8 — `cancel_task` succeeds for every robot id the Registry knows —
its status, battery and task phase are never consulted — and publishes the
cancel envelope `{timestamp, reason: "user_request"}` on the robot's cancel
topic at REAL_TIME priority; for an unknown robot id both `cancel_task` and
`get_robot` return the 404 not-found error. -/
theorem cancel_known_iff_and_unknown_404 (reg : Registry) (rid : String) (now : ℚ) :
    ((dictGet reg rid).isSome = true →
      cancel_task reg rid now =
        Except.ok
          ({ topic := "fms/robot/" ++ rid ++ "/cmd/cancel", timestamp := now,
             reason := "user_request", transport_priority := Priority.realTime },
           "cancel command sent")) ∧
    (dictGet reg rid = none →
      cancel_task reg rid now = Except.error (404, "机器人不存在") ∧
        get_robot reg rid = Except.error (404, "机器人不存在")) := by
  constructor
  · intro h
    unfold cancel_task
    rw [h]
    rfl
  · intro h
    constructor
    · unfold cancel_task
      rw [h]
      rfl
    · unfold get_robot
      rw [h]

/-- Witness for C8: `r9` is known but `"OFFLINE"` with battery 0 — cancel
still succeeds; the unknown `r3` gets 404 from both cancel and get. -/
theorem cancel_known_iff_and_unknown_404_witness :
    (cancel_task [("r9", { robot_id := "r9", status := JValue.str "OFFLINE" })] "r9" 3 =
      Except.ok
        ({ topic := "fms/robot/" ++ "r9" ++ "/cmd/cancel", timestamp := 3,
           reason := "user_request", transport_priority := Priority.realTime },
         "cancel command sent")) ∧
    (cancel_task [] "r3" 3 = Except.error (404, "机器人不存在") ∧
      get_robot [] "r3" = Except.error (404, "机器人不存在")) :=
  ⟨(cancel_known_iff_and_unknown_404
      [("r9", { robot_id := "r9", status := JValue.str "OFFLINE" })] "r9" 3).1 rfl,
   (cancel_known_iff_and_unknown_404 [] "r3" 3).2 rfl⟩

/-! ### Broadcast fan-out (C7) -/

theorem broadcast_update_all_ok : ∀ conns : List Observer,
    (∀ o ∈ conns, o.failSend = false) → broadcast_update conns = (conns, true)
  | [], _ => rfl
  | c :: rest, h => by
      have hc : c.failSend = false := h c (List.mem_cons_self ..)
      have ih := broadcast_update_all_ok rest (fun o ho => h o (List.mem_cons_of_mem _ ho))
      unfold broadcast_update
      rw [if_neg (by rw [hc]; exact Bool.false_ne_true), ih]

theorem broadcast_update_delivered : ∀ conns : List Observer,
    (broadcast_update conns).1 = conns.takeWhile (fun o => !o.failSend)
  | [] => rfl
  | c :: rest => by
      by_cases hf : c.failSend = true
      · unfold broadcast_update
        simp [hf, List.takeWhile_cons]
      · rw [Bool.not_eq_true] at hf
        unfold broadcast_update
        simp [hf, List.takeWhile_cons, broadcast_update_delivered rest]

theorem broadcast_update_completes_iff : ∀ conns : List Observer,
    (broadcast_update conns).2 = true ↔ ∀ o ∈ conns, o.failSend = false
  | [] => by simp [broadcast_update]
  | c :: rest => by
      by_cases hf : c.failSend = true
      · unfold broadcast_update
        simp [hf]
      · rw [Bool.not_eq_true] at hf
        unfold broadcast_update
        simp [hf, broadcast_update_completes_iff rest]

/-- C7 — the claim as stated is false on the code: `broadcast_update` only
ever runs with the manager's non-reentrant `asyncio.Lock` already held (its
two call sites take it), and on a send failure it awaits
`remove_connection`, which re-acquires that same lock in the same task — a
deadlock. So when observer `a`'s send fails, `a` is *not* removed from the
set, observer `b` — registered at publish time, its send would succeed —
never receives the envelope, and the publish call never returns to its
caller. Concrete pass over `[a (send fails), b (send succeeds)]`: nothing
is delivered and the pass does not complete. -/
theorem broadcast_failure_hangs_cex :
    broadcast_update
        [{ id := "a", failSend := true }, { id := "b", failSend := false }] =
      ([], false) ∧
      ({ id := "b", failSend := false } : Observer).failSend = false := by
  decide

/-- C7 (amended) — a fan-out pass sends in registration order: when no
observer's send fails, every observer registered at publish time receives
the envelope, the pass completes, and nothing is removed or raised; the
envelope reaches exactly the longest prefix of observers before the first
failing one; and the pass completes if and only if no registered observer's
send fails — on the first failure the task deadlocks re-acquiring the
manager's already-held non-reentrant lock inside `remove_connection`, so
the failing observer is not removed, later observers receive nothing, and
the publish never returns. -/
theorem broadcast_deadlock_properties (conns : List Observer) :
    ((∀ o ∈ conns, o.failSend = false) → broadcast_update conns = (conns, true)) ∧
      (broadcast_update conns).1 = conns.takeWhile (fun o => !o.failSend) ∧
      ((broadcast_update conns).2 = true ↔ ∀ o ∈ conns, o.failSend = false) :=
  ⟨broadcast_update_all_ok conns, broadcast_update_delivered conns,
    broadcast_update_completes_iff conns⟩

/-- Witness for C7 (amended): a two-observer pass with no failures delivers
to both and completes. -/
theorem broadcast_deadlock_properties_witness :
    broadcast_update
        [{ id := "a", failSend := false }, { id := "b", failSend := false }] =
      ([{ id := "a", failSend := false }, { id := "b", failSend := false }], true) :=
  (broadcast_deadlock_properties
      [{ id := "a", failSend := false }, { id := "b", failSend := false }]).1
    (by decide)

/-! ### Bus topics (C9) -/

/-- C9 — the claim as stated is false on the code: every topic in the code
uses the prefix `fms`, not `fleet`. The subscription pattern is
`fms/robot/*/state/**`, the offline event key is
`fms/system/event/robot_offline`, and a report published under the
`fleet/...` hierarchy is dropped by the ingest callback. -/
theorem topics_fms_not_fleet_cex :
    subscribePattern ≠ "fleet/robot/*/state/**" ∧
      offlineEventTopic ≠ "fleet/system/event/robot_offline" ∧
      parse_state_key "fleet/robot/r1/state/pose" = none ∧
      parse_state_key "fms/robot/r1/state/pose" = some ("r1", "pose") := by
  refine ⟨by decide, by decide, by decide, by decide⟩

/-- C9 (amended) — inbound state reports are subscribed on
`fms/robot/*/state/**`; the ingest callback takes the segment after
`robot/` as the robot id and rejoins every segment after `state/` as the
category; offline transitions are published on
`fms/system/event/robot_offline`, each event carrying the robot id and the
sweep timestamp. -/
theorem topics_and_key_parsing :
    subscribePattern = "fms/robot/*/state/**" ∧
      offlineEventTopic = "fms/system/event/robot_offline" ∧
      (∀ (key rid : String) (catParts : List String),
        splitSlash key = "fms" :: "robot" :: rid :: "state" :: catParts →
        catParts ≠ [] →
        parse_state_key key = some (rid, joinSlash catParts)) ∧
      (∀ (threshold : ℚ) (reg : Registry) (ts : List ℚ),
        ∀ e ∈ runEvents threshold reg ts, e.topic = offlineEventTopic) := by
  refine ⟨rfl, rfl, ?_, ?_⟩
  · intro key rid catParts hsplit hne
    have hred : parse_state_key key =
        if "fms" = "fms" ∧ "robot" = "robot" ∧ "state" = "state" ∧ catParts ≠ []
        then some (rid, joinSlash catParts) else none := by
      unfold parse_state_key
      rw [hsplit]
    rw [hred, if_pos ⟨rfl, rfl, rfl, hne⟩]
  · intro threshold reg ts e he
    unfold runEvents at he
    rcases List.mem_map.mp he with ⟨p, _, rfl⟩
    rfl

/-- Witness for C9 (amended): the key `fms/robot/r7/state/sensors/lidar`
parses to robot `r7` with category `sensors/lidar`. -/
theorem topics_and_key_parsing_witness :
    parse_state_key "fms/robot/r7/state/sensors/lidar" =
      some ("r7", joinSlash ["sensors", "lidar"]) :=
  topics_and_key_parsing.2.2.1 "fms/robot/r7/state/sensors/lidar" "r7"
    ["sensors", "lidar"] (by decide) (by decide)

/-! ### Default battery starves dispatch (C10) -/

theorem applyUpdates_battery_zero (rid : String) :
    ∀ (us : List UpdateMsg) (reg : Registry),
      (dictGet reg rid = none ∨
        ∃ r, dictGet reg rid = some r ∧ r.battery = JValue.num 0) →
      (∀ u ∈ us, u.robot_id = rid → u.category ≠ "battery") →
      (dictGet (applyUpdates reg us) rid = none ∨
        ∃ r, dictGet (applyUpdates reg us) rid = some r ∧ r.battery = JValue.num 0)
  | [], reg, hinv, _ => hinv
  | u :: us, reg, hinv, hcat => by
      have htail : ∀ v ∈ us, v.robot_id = rid → v.category ≠ "battery" :=
        fun v hv => hcat v (List.mem_cons_of_mem _ hv)
      refine applyUpdates_battery_zero rid us
        (update_robot_state reg u.robot_id u.category u.data u.time) ?_ htail
      by_cases hu : u.robot_id = rid
      · right
        have hb : u.category ≠ "battery" := hcat u (List.mem_cons_self ..) hu
        subst hu
        refine ⟨_, dictGet_update_self reg u.robot_id u.category u.data u.time, ?_⟩
        rw [applyUpdateRobot_battery_ne _ _ _ _ hb]
        rcases hinv with hnone | ⟨r, hr, hbz⟩
        · rw [hnone]
        · rw [hr]
          exact hbz
      · rw [dictGet_update_ne reg u.robot_id rid u.category u.data u.time
          (fun hh => hu hh)]
        exact hinv

/-- C10 — a record created implicitly by state updates starts with battery
0.0; if none of the robot's applied updates ever had category `"battery"`,
its battery is still 0, which is not greater than the 20 threshold, so
`schedule_robot` never selects it and `create_task` always answers with the
503 unavailable error — even while the robot is present and `"ONLINE"`. -/
theorem never_reported_battery_never_dispatched (reg : Registry) (us : List UpdateMsg)
    (task : TaskRequest) (now : ℚ)
    (habs : dictGet reg task.robot_id = none)
    (hcat : ∀ u ∈ us, u.robot_id = task.robot_id → u.category ≠ "battery") :
    (dictGet (applyUpdates reg us) task.robot_id = none ∨
      ∃ r, dictGet (applyUpdates reg us) task.robot_id = some r ∧
        r.battery = JValue.num 0) ∧
    schedule_robot (applyUpdates reg us) task = Except.ok none ∧
    create_task (applyUpdates reg us) task now =
      Except.error (503, "指定机器人" ++ task.robot_id ++ "不可用（离线或电量不足）") := by
  have hinv := applyUpdates_battery_zero task.robot_id us reg (Or.inl habs) hcat
  have hsched : schedule_robot (applyUpdates reg us) task = Except.ok none := by
    rcases hinv with hnone | ⟨r, hr, hbz⟩
    · exact schedule_robot_none _ _ hnone
    · rw [schedule_robot_found _ _ r hr]
      by_cases hsON : r.status = JValue.str "ONLINE"
      · rw [if_pos hsON, hbz]
        rfl
      · rw [if_neg hsON]
  exact ⟨hinv, hsched, create_task_of_unavailable _ _ _ hsched⟩

/-- Witness for C10: `r1` is implicitly registered through a pose update and
then self-reports status `"ONLINE"`, but never a battery level; its dispatch
at t = 3 is rejected with the 503 unavailable error. -/
theorem never_reported_battery_never_dispatched_witness :
    create_task
        (applyUpdates []
          [{ robot_id := "r1", category := "pose",
             data := JValue.numMap [("x", 1)], time := 1 },
           { robot_id := "r1", category := "status",
             data := JValue.str "ONLINE", time := 2 }])
        { robot_id := "r1", target_position := [("x", 5)] } 3 =
      Except.error (503, "指定机器人" ++ "r1" ++ "不可用（离线或电量不足）") :=
  (never_reported_battery_never_dispatched []
      [{ robot_id := "r1", category := "pose",
         data := JValue.numMap [("x", 1)], time := 1 },
       { robot_id := "r1", category := "status",
         data := JValue.str "ONLINE", time := 2 }]
      { robot_id := "r1", target_position := [("x", 5)] } 3 rfl (by decide)).2.2

/-! ### Liveness sweep (C3) -/

theorem sweepRobot_offline (now threshold : ℚ) (r : RobotState)
    (h : r.status = JValue.str "OFFLINE") : sweepRobot now threshold r = (r, false) := by
  unfold sweepRobot
  rw [if_neg]
  rintro ⟨-, hne⟩
  exact hne h

theorem sweepRobot_quiet (now threshold : ℚ) (r : RobotState)
    (h : ¬ now - r.last_seen > threshold) : sweepRobot now threshold r = (r, false) := by
  unfold sweepRobot
  rw [if_neg]
  rintro ⟨hgt, -⟩
  exact h hgt

theorem sweepRobot_fires (now threshold : ℚ) (r : RobotState)
    (hgt : now - r.last_seen > threshold) (hne : r.status ≠ JValue.str "OFFLINE") :
    sweepRobot now threshold r = ({ r with status := JValue.str "OFFLINE" }, true) := by
  unfold sweepRobot
  rw [if_pos ⟨hgt, hne⟩]

theorem dictGet_mapVals {α β : Type} (f : α → β) :
    ∀ (m : List (String × α)) (key : String),
      dictGet (m.map (fun kv => (kv.1, f kv.2))) key = (dictGet m key).map f
  | [], _ => rfl
  | (k, v) :: rest, key => by
      by_cases h : k = key
      · simp [dictGet, h]
      · simp [dictGet, h, dictGet_mapVals f rest key]

theorem dictGet_sweepOnce (now threshold : ℚ) (reg : Registry) (rid : String) :
    dictGet (sweepOnce now threshold reg).1 rid =
      (dictGet reg rid).map (fun r => (sweepRobot now threshold r).1) := by
  unfold sweepOnce
  exact dictGet_mapVals (fun r => (sweepRobot now threshold r).1) reg rid

theorem sweepOnce_keys (now threshold : ℚ) (reg : Registry) :
    (sweepOnce now threshold reg).1.map Prod.fst = reg.map Prod.fst := by
  unfold sweepOnce
  simp

theorem sweepOnce_rids_sub (now threshold : ℚ) :
    ∀ (reg : Registry) (x : String),
      x ∈ (sweepOnce now threshold reg).2 → x ∈ reg.map Prod.fst := by
  intro reg x hx
  unfold sweepOnce at hx
  rcases List.mem_filterMap.mp hx with ⟨kv, hkv, hsome⟩
  by_cases hf : (sweepRobot now threshold kv.2).2 = true
  · rw [if_pos hf] at hsome
    injection hsome with hsome
    subst hsome
    exact List.mem_map_of_mem Prod.fst hkv
  · rw [if_neg hf] at hsome
    exact Option.noConfusion hsome

theorem sweepOnce_rids_absent (now threshold : ℚ) (reg : Registry) (rid : String)
    (h : rid ∉ reg.map Prod.fst) :
    (sweepOnce now threshold reg).2.filter (fun x => x = rid) = [] := by
  rw [List.filter_eq_nil_iff]
  intro x hx
  simp only [decide_eq_true_eq]
  intro heq
  subst heq
  exact h (sweepOnce_rids_sub now threshold reg x hx)

theorem sweepOnce_count (now threshold : ℚ) :
    ∀ (reg : Registry) (rid : String) (r : RobotState),
      (reg.map Prod.fst).Nodup → dictGet reg rid = some r →
      ((sweepOnce now threshold reg).2.filter (fun x => x = rid)).length =
        if (sweepRobot now threshold r).2 = true then 1 else 0
  | [], rid, r, _, hget => Option.noConfusion hget
  | (k, v) :: rest, rid, r, hnd, hget => by
      have hnd' : (rest.map Prod.fst).Nodup := (List.nodup_cons.mp hnd).2
      have hkabs : k ∉ rest.map Prod.fst := (List.nodup_cons.mp hnd).1
      by_cases hk : k = rid
      · subst hk
        have hv : v = r := by
          have : dictGet ((k, v) :: rest) k = some v := by simp [dictGet]
          rw [hget] at this
          injection this with hvr
          exact hvr.symm
        subst hv
        have htail : (sweepOnce now threshold rest).2.filter (fun x => x = k) = [] :=
          sweepOnce_rids_absent now threshold rest k hkabs
        by_cases hf : (sweepRobot now threshold v).2 = true
        · rw [if_pos hf]
          unfold sweepOnce
          simp only [List.filterMap_cons, hf, if_pos]
          rw [List.filter_cons_of_pos (by simp)]
          have : (List.filterMap (fun kr =>
              if (sweepRobot now threshold kr.2).2 = true then some kr.1 else none) rest).filter
              (fun x => x = k) = [] := htail
          rw [List.length_cons, this]
          rfl
        · rw [if_neg hf]
          unfold sweepOnce
          simp only [List.filterMap_cons, hf, if_neg, Bool.false_eq_true, ite_false]
          have : (List.filterMap (fun kr =>
              if (sweepRobot now threshold kr.2).2 = true then some kr.1 else none) rest).filter
              (fun x => x = k) = [] := htail
          rw [this]
          rfl
      · have hget' : dictGet rest rid = some r := by
          rw [show dictGet ((k, v) :: rest) rid =
                if k = rid then some v else dictGet rest rid from rfl, if_neg hk] at hget
          exact hget
        have ih := sweepOnce_count now threshold rest rid r hnd' hget'
        unfold sweepOnce
        simp only [List.filterMap_cons]
        unfold sweepOnce at ih
        by_cases hf : (sweepRobot now threshold v).2 = true
        · simp only [hf, if_pos]
          rw [List.filter_cons_of_neg (by simp [hk])]
          exact ih
        · simp only [hf, Bool.false_eq_true, ite_false]
          exact ih

theorem filter_snd_map_pair (t : ℚ) (rid : String) :
    ∀ l : List String,
      ((l.map (fun x => (t, x))).filter (fun p => p.2 = rid)).length =
        (l.filter (fun x => x = rid)).length
  | [] => rfl
  | x :: rest => by
      by_cases hx : x = rid
      · simp only [List.map_cons, List.filter_cons]
        simp [hx, filter_snd_map_pair t rid rest]
      · simp only [List.map_cons, List.filter_cons]
        simp [hx, filter_snd_map_pair t rid rest]

theorem runSweeps_count (threshold : ℚ) (rid : String) :
    ∀ (ts : List ℚ) (reg : Registry) (r : RobotState),
      (reg.map Prod.fst).Nodup → dictGet reg rid = some r →
      (((runSweeps threshold reg ts).2).filter (fun p => p.2 = rid)).length =
        if r.status ≠ JValue.str "OFFLINE" ∧ (∃ t ∈ ts, t - r.last_seen > threshold)
        then 1 else 0
  | [], reg, r, _, _ => by simp [runSweeps]
  | t :: ts, reg, r, hnd, hget => by
      have hnd' : ((sweepOnce t threshold reg).1.map Prod.fst).Nodup := by
        rw [sweepOnce_keys]
        exact hnd
      have hget' : dictGet (sweepOnce t threshold reg).1 rid =
          some (sweepRobot t threshold r).1 := by
        rw [dictGet_sweepOnce, hget]
        rfl
      have ih := runSweeps_count threshold rid ts (sweepOnce t threshold reg).1
        (sweepRobot t threshold r).1 hnd' hget'
      have hstep : (runSweeps threshold reg (t :: ts)).2 =
          ((sweepOnce t threshold reg).2.map (fun x => (t, x))) ++
            (runSweeps threshold (sweepOnce t threshold reg).1 ts).2 := rfl
      rw [hstep, List.filter_append, List.length_append, filter_snd_map_pair,
        sweepOnce_count t threshold reg rid r hnd hget, ih]
      by_cases hoff : r.status = JValue.str "OFFLINE"
      · rw [sweepRobot_offline t threshold r hoff]
        simp [hoff]
      · by_cases hgt : t - r.last_seen > threshold
        · rw [sweepRobot_fires t threshold r hgt hoff]
          simp [hoff, hgt]
        · rw [sweepRobot_quiet t threshold r hgt]
          dsimp only
          simp only [Bool.false_eq_true, if_false, Nat.zero_add]
          by_cases hex : ∃ t' ∈ ts, t' - r.last_seen > threshold
          · have hex' : ∃ t' ∈ t :: ts, t' - r.last_seen > threshold := by
              rcases hex with ⟨t', ht', hgt'⟩
              exact ⟨t', List.mem_cons_of_mem _ ht', hgt'⟩
            rw [if_pos ⟨hoff, hex⟩, if_pos ⟨hoff, hex'⟩]
          · have hnex' : ¬ ∃ t' ∈ t :: ts, t' - r.last_seen > threshold := by
              rintro ⟨t', ht', hgt'⟩
              rcases List.mem_cons.mp ht' with rfl | ht''
              · exact hgt hgt'
              · exact hex ⟨t', ht'', hgt'⟩
            rw [if_neg (by rintro ⟨-, hex0⟩; exact hex hex0),
              if_neg (by rintro ⟨-, hex0⟩; exact hnex' hex0)]

theorem filter_length_map {α β : Type} (f : α → β) (p : β → Bool) :
    ∀ l : List α, ((l.map f).filter p).length = (l.filter (fun a => p (f a))).length
  | [] => rfl
  | x :: rest => by
      by_cases hx : p (f x) = true
      · simp only [List.map_cons, List.filter_cons]
        simp [hx, filter_length_map f p rest]
      · simp only [List.map_cons, List.filter_cons]
        simp [hx, filter_length_map f p rest]

/-- C3 — over any run of liveness sweeps during which a robot receives no
updates: if the robot is not already `"OFFLINE"` and some sweep happens more
than `threshold` after its `last_seen`, then exactly one status broadcast and
exactly one `robot_offline` system event are emitted for it across the whole
run, no matter how many sweep iterations occur; a robot already `"OFFLINE"`
is never transitioned again (zero broadcasts, zero events). -/
theorem liveness_offline_exactly_once (reg : Registry) (threshold : ℚ) (rid : String)
    (r : RobotState) (ts : List ℚ)
    (hnd : (reg.map Prod.fst).Nodup)
    (hget : dictGet reg rid = some r) :
    ((r.status ≠ JValue.str "OFFLINE" → (∃ t ∈ ts, t - r.last_seen > threshold) →
        ((runBroadcasts threshold reg ts).filter (fun b => b.robot_id = rid)).length = 1 ∧
        ((runEvents threshold reg ts).filter (fun e => e.robot_id = rid)).length = 1) ∧
      (r.status = JValue.str "OFFLINE" →
        ((runBroadcasts threshold reg ts).filter (fun b => b.robot_id = rid)).length = 0 ∧
        ((runEvents threshold reg ts).filter (fun e => e.robot_id = rid)).length = 0)) := by
  have hcount := runSweeps_count threshold rid ts reg r hnd hget
  have hb : ((runBroadcasts threshold reg ts).filter (fun b => b.robot_id = rid)).length =
      (((runSweeps threshold reg ts).2).filter (fun p => p.2 = rid)).length := by
    unfold runBroadcasts
    exact filter_length_map _ _ _
  have he : ((runEvents threshold reg ts).filter (fun e => e.robot_id = rid)).length =
      (((runSweeps threshold reg ts).2).filter (fun p => p.2 = rid)).length := by
    unfold runEvents
    exact filter_length_map _ _ _
  constructor
  · intro hne hex
    rw [hb, he, hcount, if_pos ⟨hne, hex⟩]
    exact ⟨rfl, rfl⟩
  · intro hoff
    rw [hb, he, hcount, if_neg (by rintro ⟨hne, -⟩; exact hne hoff)]
    exact ⟨rfl, rfl⟩

/-- Witness for C3: robot `r2` (`"ONLINE"`, `last_seen = 0`) with threshold
5 and sweeps at t = 3, 6, 7, 100: exactly one broadcast and one event. -/
theorem liveness_offline_exactly_once_witness :
    ((runBroadcasts 5
        [("r2", { robot_id := "r2", status := JValue.str "ONLINE", last_seen := 0 })]
        [3, 6, 7, 100]).filter (fun b => b.robot_id = "r2")).length = 1 ∧
      ((runEvents 5
        [("r2", { robot_id := "r2", status := JValue.str "ONLINE", last_seen := 0 })]
        [3, 6, 7, 100]).filter (fun e => e.robot_id = "r2")).length = 1 :=
  (liveness_offline_exactly_once
      [("r2", { robot_id := "r2", status := JValue.str "ONLINE", last_seen := 0 })]
      5 "r2" { robot_id := "r2", status := JValue.str "ONLINE", last_seen := 0 }
      [3, 6, 7, 100] (by decide) rfl).1 (by decide)
    ⟨6, by decide, by norm_num⟩

end FMS
